import Mathlib

/-!
Verification of the InvenTree excerpt: the FabLab barcode plugin
(`src/InvenTree/plugins/fablab_barcode.py`) and the ownership-gated stock
mutation logic exercised by `src/InvenTree/stock/test_views.py`.

The barcode plugin's `validate` and `getPart` are embedded directly from the
source.  The external `barcodenumber.check_code` library is abstracted as a
boolean function parameter.  The ownership gate and `Owner.get_owner` are not
part of the excerpt's source (only their tests are), so they are modelled from
the specification; those definitions say so in their doc comments.
-/

namespace InvenTree

/-! ## Barcode plugin: data model -/

/-- A domain `Part` record: primary key and the normalized identifier field
`IPN` that barcode scans are matched against (`Part.objects.get(IPN__iexact=...)`). -/
structure Part where
  pk : Nat
  IPN : String
deriving DecidableEq, Repr

/-- The plugin's configured standards, from the source:
`BARCODE_STANDARDS = ['EAN', 'EAN13', 'EAN8', 'UPC']`. -/
def BARCODE_STANDARDS : List String := ["EAN", "EAN13", "EAN8", "UPC"]

/-- `FablabBarcodePlugin.validate`, embedded from the source: iterate through
each configured barcode standard, returning `true` on the first standard whose
checksum rule (`barcodenumber.check_code`, abstracted as `check`) accepts the
scan data, and `false` when no standard accepts it. -/
def validate (standards : List String) (check : String → String → Bool)
    (data : String) : Bool :=
  match standards with
  | [] => false
  | codeType :: rest =>
      if check codeType data then true else validate rest check data

/-- `validate` agrees with `List.any` over the standards. -/
theorem validate_eq_any (standards : List String)
    (check : String → String → Bool) (data : String) :
    validate standards check data = standards.any (fun std => check std data) := by
  induction standards with
  | nil => rfl
  | cons codeType rest ih =>
      unfold validate
      by_cases h : check codeType data = true
      · simp [h]
      · simp only [Bool.not_eq_true] at h
        simp [h, ih]

/-! ## Barcode plugin: the `getPart` lookup -/

/-- Outcome of the underlying ORM query feeding `Part.objects.get`:
either the query machinery raises `ValueError` (the value cannot be coerced
for the query), or it produces the list of rows matching the filter. -/
inductive QueryOutcome (α : Type) where
  | valueError : QueryOutcome α
  | results : List α → QueryOutcome α
deriving DecidableEq, Repr

/-- Errors surfaced by `getPart`: the `ValidationError({'part', 'Part does not
exist'})` raised in the `except` clause, and Django's
`MultipleObjectsReturned`, which the `except (ValueError, Part.DoesNotExist)`
clause does not catch and which therefore propagates. -/
inductive PartError where
  | validationError : List String → PartError
  | multipleObjectsReturned : PartError
deriving DecidableEq, Repr

/-- The payload of the `ValidationError` raised by `getPart` in the source:
`{'part', 'Part does not exist'}`. -/
def partDoesNotExist : PartError :=
  PartError.validationError ["part", "Part does not exist"]

/-- `FablabBarcodePlugin.getPart`'s `try/except`, embedded from the source,
over the outcome of the underlying query: a `ValueError` and a
`Part.DoesNotExist` (zero rows) are both caught and converted to the same
`ValidationError`; exactly one row is returned; more than one row raises
`MultipleObjectsReturned`, which is not caught. -/
def getPartFrom (q : QueryOutcome Part) : Except PartError Part :=
  match q with
  | QueryOutcome.valueError => Except.error partDoesNotExist
  | QueryOutcome.results [] => Except.error partDoesNotExist
  | QueryOutcome.results [p] => Except.ok p
  | QueryOutcome.results (_ :: _ :: _) => Except.error PartError.multipleObjectsReturned

/-- ASCII lower-casing of one character, the folding `IPN__iexact` (SQL
`LOWER`) applies to the ASCII identifiers in play. -/
def lowerChar (c : Char) : Char :=
  if 65 ≤ c.toNat ∧ c.toNat ≤ 90 then Char.ofNat (c.toNat + 32) else c

/-- ASCII lower-casing of a string, character by character. -/
def lowerStr (s : String) : String :=
  ⟨s.data.map lowerChar⟩

/-- The rows matched by `Part.objects.get(IPN__iexact=self.data)`: a
case-insensitive exact match of the scan data against each part's `IPN`. -/
def iexactMatches (db : List Part) (data : String) : List Part :=
  db.filter (fun p => lowerStr p.IPN == lowerStr data)

/-- `FablabBarcodePlugin.getPart`, embedded from the source: run the
`IPN__iexact` query against the database and feed its rows through the
`try/except` wrapper.  (A string-valued scan never raises `ValueError`, so the
query outcome here is always `results`; the `valueError` arm of `getPartFrom`
models the other exception the `except` clause covers.) -/
def getPart (db : List Part) (data : String) : Except PartError Part :=
  getPartFrom (QueryOutcome.results (iexactMatches db data))

/-! ## Barcode resolution pipeline -/

/-- The distinct outcomes of resolving a scan, as the spec's error taxonomy
names them. -/
inductive ResolveError where
  | invalidScan : ResolveError
  | notFound : ResolveError
  | multipleResults : ResolveError
deriving DecidableEq, Repr

/-- Modelled from the spec: the `resolve` pipeline (the `BarcodeMixin` driver
that strings `validate` and `getPart` together is not part of the excerpt's
source).  "first calls `validate`; if invalid, fails with InvalidScanError.
If valid, performs a case-insensitive exact-match lookup ... Fails with
NotFoundError if zero entities match"; a multiple-match failure from the
lookup propagates.  `validate` and `getPart` themselves are the embeddings
from the source above. -/
def resolve (standards : List String) (check : String → String → Bool)
    (db : List Part) (data : String) : Except ResolveError Part :=
  if validate standards check data then
    match getPart db data with
    | Except.ok p => Except.ok p
    | Except.error (PartError.validationError _) => Except.error ResolveError.notFound
    | Except.error PartError.multipleObjectsReturned =>
        Except.error ResolveError.multipleResults
  else
    Except.error ResolveError.invalidScan

/-! ## Ownership gate: data model

The `OwnershipGate` (stock views' ownership checks) and `users.models.Owner`
are not part of the excerpt's source — only `stock/test_views.py`, which
exercises them over HTTP, is.  The definitions below are therefore modelled
from the specification, with the test's observations fixing the concrete
behaviour (per-user and per-group owners are distinct valid targets; a valid
owner for a create is one related to the acting user). -/

/-- Modelled from the spec: an actor-or-group handle, the argument of
`Owner.get_owner`.  An individual actor and a group are distinct handles. -/
inductive OwnerHandle where
  | user : Nat → OwnerHandle
  | group : Nat → OwnerHandle
deriving DecidableEq, Repr

/-- Modelled from the spec: the canonical `Owner` value produced by
`Owner.get_owner` — a primary key plus the handle it canonicalizes. -/
structure Owner where
  pk : Nat
  handle : OwnerHandle
deriving DecidableEq, Repr

/-- Modelled from the spec: the owner directory backing `Owner.get_owner` —
"never persisted redundantly — always resolved via a canonical lookup".
`nextPk` is the next fresh primary key. -/
structure OwnerDirectory where
  nextPk : Nat
  entries : List Owner
deriving Repr

/-- Modelled from the spec: `Owner.get_owner` (`users.models.Owner` is not in
the excerpt's source).  Resolve a handle via the canonical lookup: if an
`Owner` for the handle already exists it is returned unchanged, otherwise one
is created, stored, and returned (get-or-create). -/
def get_owner (dir : OwnerDirectory) (h : OwnerHandle) : Owner × OwnerDirectory :=
  match dir.entries.find? (fun o => o.handle == h) with
  | some o => (o, dir)
  | none =>
      let o : Owner := ⟨dir.nextPk, h⟩
      (o, ⟨dir.nextPk + 1, o :: dir.entries⟩)

/-- Modelled from the spec: an acting user, with the groups they belong to
(the test places each user in exactly one all-permissions group, but the model
allows any number). -/
structure Actor where
  id : Nat
  groups : List Nat
deriving DecidableEq, Repr

/-- Modelled from the spec: the owner handles related to an acting user — the
user themself and each of their groups.  A create-mutation owner is valid
exactly when it is one of these (the test accepts `new_user_as_owner` for
`new_user` and rejects the unrelated `user_as_owner`). -/
def relatedOwners (a : Actor) : List OwnerHandle :=
  OwnerHandle.user a.id :: a.groups.map OwnerHandle.group

/-- Modelled from the spec: a proposed create/update of a stock item, carrying
the fields the test posts (`part`, `quantity`) and an optional `owner`. -/
structure MutationRequest where
  part : Nat
  quantity : Nat
  owner : Option OwnerHandle
deriving DecidableEq, Repr

/-- Modelled from the spec: the outcome of `authorizeMutation` —
`Accepted | Rejected(reason)`. -/
inductive AuthResult where
  | accepted : AuthResult
  | rejected : String → AuthResult
deriving DecidableEq, Repr

/-- Modelled from the spec: `authorizeMutation` for a create-mutation.
1. policy disabled → accepted regardless of the owner field;
2. policy enabled, owner absent → rejected "owner required";
3. policy enabled, owner not a valid owner for the acting user → rejected
   "invalid owner";
4. else → accepted. -/
def authorizeMutation (enabled : Bool) (req : MutationRequest)
    (actingUser : Actor) : AuthResult :=
  if enabled then
    match req.owner with
    | none => AuthResult.rejected "owner required"
    | some o =>
        if o ∈ relatedOwners actingUser then AuthResult.accepted
        else AuthResult.rejected "invalid owner"
  else
    AuthResult.accepted

/-- Modelled from the spec: a stored stock item with its optional owner. -/
structure StockItem where
  pk : Nat
  part : Nat
  quantity : Nat
  owner : Option OwnerHandle
deriving DecidableEq, Repr

/-- Modelled from the spec: authorization of an update-mutation — "an update
mutation from an actor lacking permission over the current owner must be
rejected".  With the policy disabled, or with no current owner, the update is
not constrained by ownership. -/
def authorizeUpdate (enabled : Bool) (current : Option OwnerHandle)
    (actingUser : Actor) : AuthResult :=
  if enabled then
    match current with
    | none => AuthResult.accepted
    | some o =>
        if o ∈ relatedOwners actingUser then AuthResult.accepted
        else AuthResult.rejected "invalid owner"
  else
    AuthResult.accepted

/-- Modelled from the spec: processing an update-mutation against a stored
item.  An accepted update persists the request's fields; a rejected update
leaves the stored item untouched (persistence of the validated mutation only
is delegated to the persistence layer). -/
def applyUpdate (enabled : Bool) (item : StockItem) (req : MutationRequest)
    (actingUser : Actor) : StockItem :=
  match authorizeUpdate enabled item.owner actingUser with
  | AuthResult.accepted =>
      { item with part := req.part, quantity := req.quantity, owner := req.owner }
  | AuthResult.rejected _ => item

/-! ## Theorems about the barcode plugin -/

/-- C2: for every scan string, `validate` returns `true` iff at least one of
the configured barcode standards' checksum rules accepts the string, and
`false` exactly when every configured standard rejects it. -/
theorem claim_C2 (standards : List String) (check : String → String → Bool)
    (data : String) :
    validate standards check data = true ↔
      ∃ std ∈ standards, check std data = true := by
  rw [validate_eq_any, List.any_eq_true]

/-- C8: the result of `validate` is independent of the order of the configured
standards — for every scan string and every permutation of the standards
sequence, `validate` returns the same boolean. -/
theorem claim_C8 (s₁ s₂ : List String) (check : String → String → Bool)
    (data : String) (hperm : s₁.Perm s₂) :
    validate s₁ check data = validate s₂ check data := by
  rw [validate_eq_any, validate_eq_any]
  apply Bool.eq_iff_iff.mpr
  rw [List.any_eq_true, List.any_eq_true]
  constructor
  · rintro ⟨std, hmem, hstd⟩
    exact ⟨std, hperm.mem_iff.mp hmem, hstd⟩
  · rintro ⟨std, hmem, hstd⟩
    exact ⟨std, hperm.mem_iff.mpr hmem, hstd⟩

/-- Witness for C8 at a concrete permutation of two of the plugin's
standards. -/
theorem claim_C8_witness :
    validate ["EAN13", "EAN8"] (fun std _ => std == "EAN8") "12345678"
      = validate ["EAN8", "EAN13"] (fun std _ => std == "EAN8") "12345678" :=
  claim_C8 ["EAN13", "EAN8"] ["EAN8", "EAN13"] (fun std _ => std == "EAN8")
    "12345678" (by decide)

/-- C3: `resolve` yields exactly one of three mutually distinguishable
outcomes — `invalidScan` when the scan matches no configured standard,
`notFound` when the scan is valid but zero parts match its normalized code,
and the part itself when the scan is valid and exactly one part matches; the
two error outcomes are distinct. -/
theorem claim_C3 (standards : List String) (check : String → String → Bool)
    (db : List Part) (data : String) :
    (validate standards check data = false →
      resolve standards check db data = Except.error ResolveError.invalidScan) ∧
    (validate standards check data = true → iexactMatches db data = [] →
      resolve standards check db data = Except.error ResolveError.notFound) ∧
    (∀ p : Part, validate standards check data = true →
      iexactMatches db data = [p] →
      resolve standards check db data = Except.ok p) ∧
    (Except.error ResolveError.invalidScan
      ≠ (Except.error ResolveError.notFound : Except ResolveError Part)) := by
  refine ⟨?_, ?_, ?_, by simp⟩
  · intro hv
    simp [resolve, hv]
  · intro hv hm
    simp [resolve, hv, getPart, hm, getPartFrom, partDoesNotExist]
  · intro p hv hm
    simp [resolve, hv, getPart, hm, getPartFrom]

/-- Witness for C3: all three outcomes realized at concrete inputs. -/
theorem claim_C3_witness :
    resolve BARCODE_STANDARDS (fun _ d => d == "12345678") [] "not-a-barcode"
      = Except.error ResolveError.invalidScan ∧
    resolve BARCODE_STANDARDS (fun _ d => d == "12345678") [] "12345678"
      = Except.error ResolveError.notFound ∧
    resolve BARCODE_STANDARDS (fun _ d => d == "12345678")
        [⟨1, "12345678"⟩] "12345678"
      = Except.ok ⟨1, "12345678"⟩ :=
  ⟨(claim_C3 BARCODE_STANDARDS (fun _ d => d == "12345678") [] "not-a-barcode").1
      (by decide),
   (claim_C3 BARCODE_STANDARDS (fun _ d => d == "12345678") [] "12345678").2.1
      (by decide) (by decide),
   (claim_C3 BARCODE_STANDARDS (fun _ d => d == "12345678")
        [⟨1, "12345678"⟩] "12345678").2.2.1 ⟨1, "12345678"⟩
      (by decide) (by decide)⟩

/-- C4: if the lookup finds more than one part matching the normalized code,
`resolve` propagates the underlying multiple-results failure as an error — it
neither returns one of the matching parts nor converts the condition into the
not-found error. -/
theorem claim_C4 (standards : List String) (check : String → String → Bool)
    (db : List Part) (data : String)
    (hv : validate standards check data = true)
    (hm : 2 ≤ (iexactMatches db data).length) :
    resolve standards check db data = Except.error ResolveError.multipleResults ∧
    resolve standards check db data ≠ Except.error ResolveError.notFound ∧
    ∀ p : Part, resolve standards check db data ≠ Except.ok p := by
  cases hm' : iexactMatches db data with
  | nil => rw [hm'] at hm; simp at hm
  | cons x rest =>
    cases rest with
    | nil => rw [hm'] at hm; simp at hm
    | cons y rest' =>
      refine ⟨?_, ?_, ?_⟩ <;>
        simp [resolve, hv, getPart, hm', getPartFrom]

/-- Witness for C4 at a database holding two parts whose IPNs differ only in
case, both matching the scan. -/
theorem claim_C4_witness :
    resolve BARCODE_STANDARDS (fun _ _ => true)
        [⟨1, "ABC"⟩, ⟨2, "abc"⟩] "Abc"
      = Except.error ResolveError.multipleResults :=
  (claim_C4 BARCODE_STANDARDS (fun _ _ => true) [⟨1, "ABC"⟩, ⟨2, "abc"⟩] "Abc"
      (by decide) (by decide)).1

/-- `validate` cannot tell apart scans the checksum rules cannot tell apart. -/
theorem validate_congr (standards : List String)
    (check : String → String → Bool) (s₁ s₂ : String)
    (hcheck : ∀ std t₁ t₂, lowerStr t₁ = lowerStr t₂ → check std t₁ = check std t₂)
    (hs : lowerStr s₁ = lowerStr s₂) :
    validate standards check s₁ = validate standards check s₂ := by
  induction standards with
  | nil => rfl
  | cons codeType rest ih =>
      unfold validate
      rw [hcheck codeType s₁ s₂ hs, ih]

/-- The `IPN__iexact` row set depends only on the case-folded scan string. -/
theorem iexactMatches_congr (db : List Part) (s₁ s₂ : String)
    (hs : lowerStr s₁ = lowerStr s₂) :
    iexactMatches db s₁ = iexactMatches db s₂ := by
  unfold iexactMatches
  rw [hs]

/-- C5: for every pair of scan strings that differ only in letter case,
`resolve` returns the same result — the lookup against the normalized
identifier field is case-insensitive (provided the checksum rules are, which
holds for the digit-only EAN/UPC checkers). -/
theorem claim_C5 (standards : List String) (check : String → String → Bool)
    (db : List Part) (s₁ s₂ : String)
    (hcheck : ∀ std t₁ t₂, lowerStr t₁ = lowerStr t₂ → check std t₁ = check std t₂)
    (hs : lowerStr s₁ = lowerStr s₂) :
    resolve standards check db s₁ = resolve standards check db s₂ := by
  unfold resolve getPart
  rw [validate_congr standards check s₁ s₂ hcheck hs,
    iexactMatches_congr db s₁ s₂ hs]

/-- Witness for C5: two case variants of one scan resolve identically against
a database holding the part in a third case variant. -/
theorem claim_C5_witness :
    resolve BARCODE_STANDARDS (fun _ _ => true) [⟨1, "AbC123"⟩] "abc123"
      = resolve BARCODE_STANDARDS (fun _ _ => true) [⟨1, "AbC123"⟩] "ABC123" :=
  claim_C5 BARCODE_STANDARDS (fun _ _ => true) [⟨1, "AbC123"⟩] "abc123" "ABC123"
    (fun _ _ _ _ => rfl) (by decide)

/-- C10: `getPart` reports the same error for a malformed lookup value as for
a missing part — a `ValueError` from the underlying lookup and a zero-row
result both produce the identical `ValidationError` payload, so a caller
cannot distinguish the two. -/
theorem claim_C10 (db : List Part) (data : String)
    (h : iexactMatches db data = []) :
    getPart db data = Except.error partDoesNotExist ∧
    getPartFrom QueryOutcome.valueError = Except.error partDoesNotExist := by
  constructor
  · simp [getPart, h, getPartFrom]
  · rfl

/-- Witness for C10 at a database with no part matching the scan. -/
theorem claim_C10_witness :
    getPart [⟨1, "OTHER"⟩] "12345678" = Except.error partDoesNotExist ∧
    getPartFrom QueryOutcome.valueError = Except.error partDoesNotExist :=
  claim_C10 [⟨1, "OTHER"⟩] "12345678" (by decide)

/-! ## Theorems about the ownership gate -/

/-- C7: when the ownership policy is disabled, `authorizeMutation` accepts
every mutation request regardless of its owner field, including one carrying
no owner at all. -/
theorem claim_C7 (req : MutationRequest) (actingUser : Actor) :
    authorizeMutation false req actingUser = AuthResult.accepted := by
  simp [authorizeMutation]

/-- C1: with the ownership policy enabled, a create-mutation with no owner is
rejected ("owner required"); one whose owner is unrelated to the acting user
is rejected ("invalid owner"); one whose owner resolves to the acting user or
one of their groups is accepted. -/
theorem claim_C1 (actingUser : Actor) (o : OwnerHandle) (part quantity : Nat) :
    (authorizeMutation true ⟨part, quantity, none⟩ actingUser
      = AuthResult.rejected "owner required") ∧
    (o ∉ relatedOwners actingUser →
      authorizeMutation true ⟨part, quantity, some o⟩ actingUser
        = AuthResult.rejected "invalid owner") ∧
    (o ∈ relatedOwners actingUser →
      authorizeMutation true ⟨part, quantity, some o⟩ actingUser
        = AuthResult.accepted) := by
  refine ⟨rfl, ?_, ?_⟩
  · intro hnot
    simp [authorizeMutation, hnot]
  · intro hmem
    simp [authorizeMutation, hmem]

/-- Witness for C1: the test's scenario — acting user `john` (id 2, group 20);
no owner is rejected, the unrelated first user's owner is rejected, john's own
owner is accepted. -/
theorem claim_C1_witness :
    (authorizeMutation true ⟨25, 123, none⟩ ⟨2, [20]⟩
      = AuthResult.rejected "owner required") ∧
    (authorizeMutation true ⟨25, 123, some (OwnerHandle.user 1)⟩ ⟨2, [20]⟩
      = AuthResult.rejected "invalid owner") ∧
    (authorizeMutation true ⟨25, 123, some (OwnerHandle.user 2)⟩ ⟨2, [20]⟩
      = AuthResult.accepted) :=
  ⟨(claim_C1 ⟨2, [20]⟩ (OwnerHandle.user 1) 25 123).1,
   (claim_C1 ⟨2, [20]⟩ (OwnerHandle.user 1) 25 123).2.1 (by decide),
   (claim_C1 ⟨2, [20]⟩ (OwnerHandle.user 2) 25 123).2.2 (by decide)⟩

/-- C6: when an update mutation is rejected because the acting user lacks
permission over the item's current owner, the stored owner is unchanged: for
every item with owner `O` and every update attempt by an unrelated actor, the
item's owner equals `O` after the attempt. -/
theorem claim_C6 (item : StockItem) (req : MutationRequest)
    (actingUser : Actor) (O : OwnerHandle)
    (hown : item.owner = some O)
    (hunrelated : O ∉ relatedOwners actingUser) :
    authorizeUpdate true item.owner actingUser
      = AuthResult.rejected "invalid owner" ∧
    (applyUpdate true item req actingUser).owner = some O := by
  have hauth : authorizeUpdate true item.owner actingUser
      = AuthResult.rejected "invalid owner" := by
    simp [authorizeUpdate, hown, hunrelated]
  refine ⟨hauth, ?_⟩
  rw [hown] at hauth
  simp [applyUpdate, hown, hauth]

/-- Witness for C6: the test's scenario — item 11 owned by the first user,
edited by the unrelated user `john`; the stored owner is unchanged. -/
theorem claim_C6_witness :
    (applyUpdate true ⟨11, 1, 5, some (OwnerHandle.user 1)⟩
        ⟨1, 5, some (OwnerHandle.user 2)⟩ ⟨2, [20]⟩).owner
      = some (OwnerHandle.user 1) :=
  (claim_C6 ⟨11, 1, 5, some (OwnerHandle.user 1)⟩ ⟨1, 5, some (OwnerHandle.user 2)⟩
      ⟨2, [20]⟩ (OwnerHandle.user 1) rfl (by decide)).2

/-- C9: owner resolution is idempotent — calling `get_owner` twice on the same
actor-or-group handle yields `Owner` values that compare equal. -/
theorem claim_C9 (dir : OwnerDirectory) (h : OwnerHandle) :
    (get_owner (get_owner dir h).2 h).1 = (get_owner dir h).1 := by
  unfold get_owner
  cases hfind : dir.entries.find? (fun o => o.handle == h) with
  | some o => simp [hfind]
  | none => simp [hfind, List.find?]

end InvenTree
